import Mathlib

/-!
Verification development for the `pdf_to_doc` conversion pipeline
(`src/pdf_to_doc_converter.py`).

The repository is a thin wrapper around an external PDF-to-DOCX converter:

* `_post_process_docx` — a guarded open-then-save "touch" pass on the
  produced document, suppressing some exception classes;
* `convert_pdf_bytes_to_docx` — persists the input bytes to a temporary
  file, runs the external converter, runs the validation pass, reads the
  output bytes back, and unconditionally cleans up both temporary files;
* `docx_text_preview` — a bounded, blank-filtered, order-preserving
  plain-text preview of the output document.

The embedding below is shallow.  Paragraph text and raw bytes are
character lists and natural-number lists; the external libraries
(the PDF converter and the document open/save routines) are oracles
passed as function parameters returning `Except`; the file system is a
function from path strings to optional byte contents; Python exception
flow is modelled with `Except` over a three-valued exception type
(`OSError`, `ValueError`, anything else).
-/

/-- Python exception classes relevant to the source:
`OSError` (I/O errors, of which `IOError` is an alias), `ValueError`,
and a catch-all for every other exception class. -/
inductive PyExc where
  | osError
  | valueError
  | other
deriving DecidableEq, Repr

/-- Raw byte sequences (Python `bytes`). -/
abbrev Bytes := List Nat

/-- A parsed document, reduced to what the code observes of it:
the ordered list of its paragraphs' texts (`doc.paragraphs`, `p.text`). -/
abbrev Doc := List (List Char)

/-- The whitespace characters stripped by Python's `str.strip()` on
ASCII text: space, tab, newline, carriage return, vertical tab, form feed. -/
def pyIsSpace (c : Char) : Bool :=
  c = ' ' || c = '\t' || c = '\n' || c = '\r' || c = '\x0b' || c = '\x0c'

/-- Python's `s.strip()`: remove leading and trailing whitespace. -/
def pyStrip (s : List Char) : List Char :=
  ((s.dropWhile pyIsSpace).reverse.dropWhile pyIsSpace).reverse

/-- Python's `"\n".join(out)`. -/
def joinNL : List (List Char) → List Char
  | [] => []
  | [s] => s
  | s :: rest => s ++ '\n' :: joinNL rest

/-- Number of newline-separated lines of a string: `0` for the empty
string, otherwise one more than the number of `'\n'` characters. -/
def numLines (s : List Char) : Nat :=
  if s = [] then 0 else s.count '\n' + 1

/-- The accumulating loop of `docx_text_preview`
(`src/pdf_to_doc_converter.py:66-72`):

    out = []
    for p in doc.paragraphs:
        t = (p.text or "").strip()
        if t:
            out.append(t)
        if len(out) >= max_paragraphs:
            break

`acc` holds `out` reversed; the function returns the final `out`.
`max_paragraphs` is a Python `int`, hence `Int` here. -/
def previewAux (cap : Int) : List (List Char) → List (List Char) → List (List Char)
  | [], acc => acc.reverse
  | p :: ps, acc =>
    let t := pyStrip p
    let acc2 := if t.isEmpty then acc else t :: acc
    if (acc2.length : Int) ≥ cap then acc2.reverse
    else previewAux cap ps acc2

/-- `docx_text_preview(docx_bytes, max_paragraphs)`
(`src/pdf_to_doc_converter.py:63-73`), taken at the point after the
external reader has parsed the bytes into a document: the argument is
the parsed document's paragraph list and the result is the joined
preview string `"\n".join(out)`. -/
def docx_text_preview (doc : Doc) (max_paragraphs : Int) : List Char :=
  joinNL (previewAux max_paragraphs doc [])

/-- The kept-paragraph list of the preview, before joining. -/
def previewKept (doc : Doc) (max_paragraphs : Int) : List (List Char) :=
  previewAux max_paragraphs doc []

/-! ### The validation pass and the conversion pipeline

The pipeline's effects are embedded explicitly: the file system is a
function from path names to optional contents, the external libraries
are oracle parameters returning `Except`, and each call's observable
steps are recorded in a trace. -/

/-- `_post_process_docx` (`src/pdf_to_doc_converter.py:20-35`), expressed
on the content of the file at `docx_path`.  `od` is the external
document-open routine (`Document(docx_path)`), `sd` the save routine
(`doc.save(docx_path)`, yielding the bytes it writes).  The Python
function mutates the file in place and returns `None`; here `Except.ok`
carries the file's content after a normal return and `Except.error` a
propagated exception:

    try:
        doc = Document(docx_path)
    except (OSError, ValueError):
        return
    try:
        doc.save(docx_path)
    except OSError:
        return
-/
def post_process_docx (od : Bytes → Except PyExc Doc)
    (sd : Doc → Except PyExc Bytes) (content : Bytes) : Except PyExc Bytes :=
  match od content with
  | .error .osError => .ok content
  | .error .valueError => .ok content
  | .error e => .error e
  | .ok doc =>
    match sd doc with
    | .error .osError => .ok content
    | .error e => .error e
    | .ok saved => .ok saved

/-- A file system: the contents, if any, at each path. -/
abbrev FileSys := String → Option Bytes

/-- Write `b` at path `p`. -/
def fsWrite (fs : FileSys) (p : String) (b : Bytes) : FileSys :=
  fun q => if q = p then some b else fs q

/-- `os.path.exists(p)`. -/
def fsExists (fs : FileSys) (p : String) : Bool :=
  (fs p).isSome

/-- One iteration of the cleanup loop (`src/pdf_to_doc_converter.py:56-61`):

    try:
        if p and os.path.exists(p):
            os.unlink(p)
    except OSError:
        pass

The unlink is attempted when the path is truthy (non-empty) and the file
exists; a missing file is skipped.  `os.unlink` can itself fail with an
`OSError` (its documented error class), which the handler swallows and
the file is left on disk.  The oracle `unl` gives the outcome of the
unlink attempt at each path: `true` removes the file, `false` stands for
a raised-and-swallowed `OSError` leaving the file in place.  Either way
the step is total and never raises. -/
def cleanupOne (unl : String → Bool) (fs : FileSys) (p : String) : FileSys :=
  if p ≠ "" ∧ fsExists fs p = true then
    (if unl p then (fun q => if q = p then none else fs q) else fs)
  else fs

/-- The `finally` block: cleanup on the input path, then the output path. -/
def cleanupBoth (unl : String → Bool) (fs : FileSys)
    (pdfPath outPath : String) : FileSys :=
  cleanupOne unl (cleanupOne unl fs pdfPath) outPath

/-- Observable steps of one `convert_pdf_bytes_to_docx` call, in program
order. -/
inductive Event where
  | persistInput (path : String) (contents : Bytes)
  | runConverter (inPath outPath : String) (start : Nat) (stop : Option Nat)
      (layout : Bool)
  | validate (path : String)
  | readOutput (path : String)
  | removeFile (path : String)
deriving DecidableEq, Repr

/-- Trace of one cleanup iteration: a `removeFile` records the unlink
attempt, whether or not the unlink itself then succeeds. -/
def cleanupOneTrace (fs : FileSys) (p : String) : List Event :=
  if p ≠ "" ∧ fsExists fs p = true then [Event.removeFile p] else []

/-- Trace of the whole `finally` block. -/
def cleanupBothTrace (unl : String → Bool) (fs : FileSys)
    (pdfPath outPath : String) : List Event :=
  cleanupOneTrace fs pdfPath ++ cleanupOneTrace (cleanupOne unl fs pdfPath) outPath

/-- The fixed status string of a successful conversion
(`src/pdf_to_doc_converter.py:54`). -/
def statusMessage : String :=
  "Converted with pdf2docx (layout=True) + post-processing"

/-- Result of one pipeline call: the returned value or the propagated
exception, the file system just before the `finally` block, the file
system after it, and the trace of observable steps. -/
structure ConvResult where
  outcome : Except PyExc (Bytes × String)
  fsBefore : FileSys
  fsAfter : FileSys
  trace : List Event

/-- `convert_pdf_bytes_to_docx` (`src/pdf_to_doc_converter.py:37-61`).

`conv` is the external converter (`Converter(pdf_path)` /
`cv.convert(out_docx_path, start=0, end=None, layout=True)` /
`cv.close()`), applied to the persisted input bytes and to the arguments
of `cv.convert` — `start`, `end` (named `stop` here, `end` being
reserved) and `layout`; on success it yields the bytes written at the
output path, on error the exception the converter raises.  `od` and `sd`
are the document open/save oracles of the validation pass, `unl` the
unlink-outcome oracle of the cleanup loop.  `pdfPath` and `outPath`
stand for the fresh names handed out by `tempfile.NamedTemporaryFile`
and `tempfile.mktemp`.  Every `Except.error` outcome is an uncaught
exception unwinding through the `finally` block, which runs on all
three exit paths. -/
def convert_pdf_bytes_to_docx
    (conv : Bytes → Nat → Option Nat → Bool → Except PyExc Bytes)
    (od : Bytes → Except PyExc Doc) (sd : Doc → Except PyExc Bytes)
    (unl : String → Bool)
    (pdfPath outPath : String) (fs0 : FileSys) (pdf_bytes : Bytes) : ConvResult :=
  let fs1 := fsWrite fs0 pdfPath pdf_bytes
  let ev1 := [Event.persistInput pdfPath pdf_bytes,
              Event.runConverter pdfPath outPath 0 none true]
  match conv pdf_bytes 0 none true with
  | .error e =>
      { outcome := .error e
        fsBefore := fs1
        fsAfter := cleanupBoth unl fs1 pdfPath outPath
        trace := ev1 ++ cleanupBothTrace unl fs1 pdfPath outPath }
  | .ok converted =>
      let fs2 := fsWrite fs1 outPath converted
      match post_process_docx od sd converted with
      | .error e =>
          { outcome := .error e
            fsBefore := fs2
            fsAfter := cleanupBoth unl fs2 pdfPath outPath
            trace := ev1 ++ [Event.validate outPath]
              ++ cleanupBothTrace unl fs2 pdfPath outPath }
      | .ok touched =>
          let fs3 := fsWrite fs2 outPath touched
          { outcome := .ok (touched, statusMessage)
            fsBefore := fs3
            fsAfter := cleanupBoth unl fs3 pdfPath outPath
            trace := ev1 ++ [Event.validate outPath, Event.readOutput outPath]
              ++ cleanupBothTrace unl fs3 pdfPath outPath }

/-! ### Characterization lemmas for the preview loop -/

/-- Stripping only removes characters, so membership is preserved. -/
theorem mem_pyStrip {x : Char} {s : List Char} (h : x ∈ pyStrip s) : x ∈ s := by
  unfold pyStrip at h
  rw [List.mem_reverse] at h
  have h1 : x ∈ (s.dropWhile pyIsSpace).reverse := (List.dropWhile_sublist _).mem h
  rw [List.mem_reverse] at h1
  exact (List.dropWhile_sublist _).mem h1

/-- While the accumulated paragraph count is still below the cap, the loop
computes exactly the first `cap - len(out)` trimmed non-blank paragraphs,
appended after the already accumulated ones. -/
theorem previewAux_characterization :
    ∀ (paras acc : List (List Char)) (cap : Int),
      (acc.length : Int) < cap →
      previewAux cap paras acc =
        acc.reverse ++
          (((paras.map pyStrip).filter fun t => !t.isEmpty).take (cap - acc.length).toNat) := by
  intro paras
  induction paras with
  | nil =>
    intro acc cap _
    simp [previewAux]
  | cons p ps ih =>
    intro acc cap h
    by_cases hemp : (pyStrip p).isEmpty = true
    · have hcond : ¬ (((acc.length : Nat) : Int) ≥ cap) := by omega
      simp only [previewAux, hemp, if_true]
      rw [if_neg hcond, ih acc cap h]
      simp [hemp]
    · have hemp2 : (pyStrip p).isEmpty = false := by
        revert hemp
        cases (pyStrip p).isEmpty <;> simp
      simp only [previewAux, hemp2, if_false, Bool.false_eq_true]
      by_cases hfull : ((acc.length : Int) + 1 ≥ cap)
      · have hcond : (((pyStrip p :: acc).length : Nat) : Int) ≥ cap := by
          simp only [List.length_cons]
          push_cast
          omega
        rw [if_pos hcond]
        have htake : (cap - (acc.length : Int)).toNat = 1 := by omega
        simp [hemp2, htake, List.reverse_cons]
      · have hcond : ¬ ((((pyStrip p :: acc).length : Nat) : Int) ≥ cap) := by
          simp only [List.length_cons]
          push_cast
          omega
        rw [if_neg hcond]
        have hlt : (((pyStrip p :: acc).length : Nat) : Int) < cap := by
          simp only [List.length_cons]
          push_cast
          omega
        rw [ih (pyStrip p :: acc) cap hlt]
        have hn : ∃ n, (cap - (acc.length : Int)).toNat = n + 1 ∧
            n = (cap - ((pyStrip p :: acc).length : Int)).toNat := by
          refine ⟨(cap - ((pyStrip p :: acc).length : Int)).toNat, ?_, rfl⟩
          simp only [List.length_cons]
          push_cast
          omega
        obtain ⟨n, hn1, hn2⟩ := hn
        simp only [List.map_cons, List.filter_cons, hemp2, Bool.not_false, if_pos]
        rw [hn1, List.take_succ_cons, List.reverse_cons, List.append_assoc, ← hn2]
        simp

/-- With a non-positive cap the loop stops after the first paragraph:
the preview is the trimmed text of the first paragraph (empty when the
document is empty or the first paragraph is all whitespace). -/
theorem preview_nonpos_eq (doc : Doc) (cap : Int) (h : cap ≤ 0) :
    docx_text_preview doc cap = pyStrip (doc.headD []) := by
  cases doc with
  | nil =>
    simp [docx_text_preview, previewAux, joinNL, pyStrip]
  | cons p ps =>
    by_cases hemp : (pyStrip p).isEmpty = true
    · have hp : pyStrip p = [] := List.isEmpty_iff.mp hemp
      simp [docx_text_preview, previewAux, hemp, hp, joinNL,
        show (0 : Int) ≥ cap by omega]
    · have hemp2 : (pyStrip p).isEmpty = false := by
        revert hemp
        cases (pyStrip p).isEmpty <;> simp
      simp [docx_text_preview, previewAux, hemp2, joinNL,
        show (1 : Int) ≥ cap by omega]

/-- Joining newline-free pieces with `"\n"` yields at most one line
per piece. -/
theorem numLines_joinNL_le :
    ∀ (out : List (List Char)), (∀ x ∈ out, '\n' ∉ x) →
      numLines (joinNL out) ≤ out.length := by
  intro out
  induction out with
  | nil =>
    intro _
    simp [joinNL, numLines]
  | cons s rest ih =>
    intro h
    cases rest with
    | nil =>
      have hs : '\n' ∉ s := h s (by simp)
      by_cases hse : s = []
      · simp [joinNL, numLines, hse]
      · simp [joinNL, numLines, hse, List.count_eq_zero.mpr hs]
    | cons s2 r2 =>
      have hs : '\n' ∉ s := h s (by simp)
      have hrest : ∀ x ∈ s2 :: r2, '\n' ∉ x := by
        intro x hx
        exact h x (by simp [hx])
      have hne : s ++ '\n' :: joinNL (s2 :: r2) ≠ [] := by
        intro hcontra
        have := congrArg List.length hcontra
        simp at this
      have ih2 := ih hrest
      show numLines (s ++ '\n' :: joinNL (s2 :: r2)) ≤ (s2 :: r2).length + 1
      rw [numLines, if_neg hne]
      rw [List.count_append, List.count_cons_self, List.count_eq_zero.mpr hs]
      by_cases hJ : joinNL (s2 :: r2) = []
      · simp [hJ]
      · rw [numLines, if_neg hJ] at ih2
        omega

/-! ### Claims about the preview extractor -/

/-- Claim C2, counterexample: `docx_text_preview` with `max_paragraphs = 0`
does not return the empty string for every document — the cap is only
checked after a paragraph has been appended, so a document whose first
paragraph is non-blank yields that paragraph. -/
theorem C2_counterexample : docx_text_preview [['H', 'i']] 0 ≠ [] := by
  decide

/-- Claim C2, amended: with `max_paragraphs = 0` the preview is the trimmed
text of the document's first paragraph — the empty string exactly when the
document is empty or its first paragraph is whitespace-only. -/
theorem C2_cap_zero_first_paragraph (doc : Doc) :
    docx_text_preview doc 0 = pyStrip (doc.headD []) :=
  preview_nonpos_eq doc 0 (by omega)

/-- Claim C3, counterexample: the line bound fails as stated for every
value of `max_paragraphs`: at cap `0` a non-blank first paragraph still
produces one line, and a paragraph with an embedded newline produces two
lines under cap `1`. -/
theorem C3_counterexample :
    ¬ ((numLines (docx_text_preview [['H', 'i']] 0) : Int) ≤ 0) ∧
    ¬ ((numLines (docx_text_preview [['a', '\n', 'b']] 1) : Int) ≤ 1) := by
  decide

/-- Claim C3, amended: for `max_paragraphs ≥ 1`, and provided no paragraph
text contains an embedded newline character, the preview string has at
most `max_paragraphs` newline-separated lines. -/
theorem C3_line_bound (doc : Doc) (cap : Int) (h1 : 1 ≤ cap)
    (h2 : ∀ p ∈ doc, '\n' ∉ p) :
    (numLines (docx_text_preview doc cap) : Int) ≤ cap := by
  have h0 : ((List.length ([] : List (List Char)) : Nat) : Int) < cap := by
    simp only [List.length_nil, Nat.cast_zero]
    omega
  have hchar := previewAux_characterization doc [] cap h0
  simp only [List.length_nil, Nat.cast_zero, Int.sub_zero, List.reverse_nil,
    List.nil_append] at hchar
  unfold docx_text_preview
  rw [hchar]
  have hmem : ∀ x ∈ ((doc.map pyStrip).filter fun t => !t.isEmpty).take cap.toNat,
      '\n' ∉ x := by
    intro x hx
    have hx2 : x ∈ (doc.map pyStrip).filter fun t => !t.isEmpty :=
      List.take_subset _ _ hx
    have hx3 : x ∈ doc.map pyStrip := List.mem_of_mem_filter hx2
    obtain ⟨p, hp, rfl⟩ := List.mem_map.mp hx3
    intro hnl
    exact h2 p hp (mem_pyStrip hnl)
  have h3 := numLines_joinNL_le _ hmem
  have h4 : (((doc.map pyStrip).filter fun t => !t.isEmpty).take cap.toNat).length
      ≤ cap.toNat := by
    rw [List.length_take]
    omega
  omega

/-- Witness for C3 at a concrete document and cap. -/
theorem C3_witness : (numLines (docx_text_preview [['a'], ['b']] 1) : Int) ≤ 1 :=
  C3_line_bound [['a'], ['b']] 1 (by decide) (by decide)

/-- Claim C5: for a positive cap the loop visits paragraphs in order,
trims each, drops the ones that are blank after trimming, and keeps the
first `max_paragraphs` survivors: the kept list is exactly
`take max_paragraphs (filter nonblank (map strip doc))`, and the preview
is its newline-join.  Order preservation and the absence of blank lines
are immediate from this shape. -/
theorem C5_preview_take_filter (doc : Doc) (cap : Int) (h : 1 ≤ cap) :
    previewKept doc cap =
      ((doc.map pyStrip).filter fun t => !t.isEmpty).take cap.toNat ∧
    docx_text_preview doc cap =
      joinNL (((doc.map pyStrip).filter fun t => !t.isEmpty).take cap.toNat) := by
  have h0 : ((List.length ([] : List (List Char)) : Nat) : Int) < cap := by
    simp only [List.length_nil, Nat.cast_zero]
    omega
  have hchar := previewAux_characterization doc [] cap h0
  simp only [List.length_nil, Nat.cast_zero, Int.sub_zero, List.reverse_nil,
    List.nil_append] at hchar
  exact ⟨hchar, by unfold docx_text_preview; rw [hchar]⟩

/-- Witness for C5 at a concrete document and cap. -/
theorem C5_witness :
    docx_text_preview [[' '], ['a'], ['b']] 1 =
      joinNL ((([[' '], ['a'], ['b']].map pyStrip).filter
        fun t => !t.isEmpty).take (1 : Int).toNat) :=
  (C5_preview_take_filter [[' '], ['a'], ['b']] 1 (by decide)).2

/-- Claim C6: the two concrete examples from the spec — paragraphs
`["", "  ", "Hello", "World"]` with cap 1 give `"Hello"`, and
`["A", "B", "C"]` with cap 5 give `"A\nB\nC"`. -/
theorem C6_concrete_examples :
    docx_text_preview
        [[], [' ', ' '], ['H', 'e', 'l', 'l', 'o'], ['W', 'o', 'r', 'l', 'd']] 1
      = ['H', 'e', 'l', 'l', 'o'] ∧
    docx_text_preview [['A'], ['B'], ['C']] 5 = ['A', '\n', 'B', '\n', 'C'] := by
  decide

/-- Claim C10: with a cap of zero or below, the loop examines at most the
first paragraph — the cap check only runs after an append — and returns
that paragraph's trimmed text when non-blank, the empty string otherwise
(in particular for the empty document). -/
theorem C10_nonpositive_cap (doc : Doc) (cap : Int) (h : cap ≤ 0) :
    docx_text_preview doc cap = pyStrip (doc.headD []) :=
  preview_nonpos_eq doc cap h

/-- Witness for C10 at a concrete document and a negative cap. -/
theorem C10_witness : docx_text_preview [[' ', 'a']] (-2) = ['a'] := by
  have h := C10_nonpositive_cap [[' ', 'a']] (-2) (by decide)
  rw [h]
  decide

/-! ### Helper lemmas about cleanup and the validation pass -/

/-- After one cleanup iteration on a non-empty path whose unlink attempt
succeeds, no file is left there: an existing file is unlinked, a missing
one was already absent. -/
theorem cleanupOne_self (unl : String → Bool) (fs : FileSys) (p : String)
    (hp : p ≠ "") (hu : unl p = true) : cleanupOne unl fs p p = none := by
  unfold cleanupOne
  by_cases he : fsExists fs p = true
  · simp [hp, he, hu]
  · have h0 : fs p = none := by
      unfold fsExists at he
      exact Option.not_isSome_iff_eq_none.mp he
    simp [he, h0]

/-- Cleanup never creates a file: a path with no file keeps none. -/
theorem cleanupOne_preserves_none (unl : String → Bool) (fs : FileSys)
    (p q : String) (h : fs q = none) : cleanupOne unl fs p q = none := by
  unfold cleanupOne
  by_cases hc : p ≠ "" ∧ fsExists fs p = true
  · by_cases hu : unl p = true
    · simp [hc, hu, h]
    · simp [hc, hu, h]
  · simp [hc, h]

/-- Cleanup on a missing file is a no-op: the step is total, tolerating
an already-removed file without raising. -/
theorem cleanupOne_missing (unl : String → Bool) (fs : FileSys) (p : String)
    (h : fsExists fs p = false) : cleanupOne unl fs p = fs := by
  unfold cleanupOne
  simp [h]

/-- One cleanup iteration touches at most its own path. -/
theorem cleanupOne_other (unl : String → Bool) (fs : FileSys) (p q : String)
    (h : q ≠ p) : cleanupOne unl fs p q = fs q := by
  unfold cleanupOne
  by_cases hc : p ≠ "" ∧ fsExists fs p = true
  · by_cases hu : unl p = true
    · simp [hc, hu, h]
    · simp [hc, hu]
  · simp [hc]

/-- After the full `finally` block, if both unlink attempts succeed,
neither path holds a file. -/
theorem cleanupBoth_clears (unl : String → Bool) (fs : FileSys) (a b : String)
    (ha : a ≠ "") (hb : b ≠ "") (hua : unl a = true) (hub : unl b = true) :
    cleanupBoth unl fs a b a = none ∧ cleanupBoth unl fs a b b = none := by
  constructor
  · exact cleanupOne_preserves_none _ _ _ _ (cleanupOne_self unl fs a ha hua)
  · exact cleanupOne_self _ _ b hb hub

/-- Case analysis on a normal return of the validation pass: the file
content is unchanged (an error was suppressed, or the save rewrote the
same bytes the oracle produced) or it is the bytes the save produced. -/
theorem post_process_ok_cases (od : Bytes → Except PyExc Doc)
    (sd : Doc → Except PyExc Bytes) (c t : Bytes)
    (h : post_process_docx od sd c = .ok t) :
    t = c ∨ ∃ doc, od c = .ok doc ∧ sd doc = .ok t := by
  cases hod : od c with
  | error e =>
    cases e with
    | osError =>
      simp only [post_process_docx, hod] at h
      exact Or.inl (by injection h with h2; exact h2.symm)
    | valueError =>
      simp only [post_process_docx, hod] at h
      exact Or.inl (by injection h with h2; exact h2.symm)
    | other =>
      simp only [post_process_docx, hod] at h
      exact absurd h (by simp)
  | ok doc =>
    cases hsd : sd doc with
    | error e =>
      simp only [post_process_docx, hod, hsd] at h
      cases e with
      | osError => exact Or.inl (by injection h with h2; exact h2.symm)
      | valueError => exact absurd h (by simp)
      | other => exact absurd h (by simp)
    | ok saved =>
      simp only [post_process_docx, hod, hsd] at h
      injection h with h2
      exact Or.inr ⟨doc, rfl, by rw [hsd, h2]⟩

/-! ### Claims about the validation pass and the pipeline -/

/-- Claim C1, counterexample: a `ValueError` raised while re-saving the
document is not suppressed — the save step's handler catches only
`OSError` — so the validation pass propagates it to the caller instead of
silently returning with the output file as-is. -/
theorem C1_counterexample :
    post_process_docx (fun _ => .ok [['x']]) (fun _ => .error PyExc.valueError) [7]
      = .error PyExc.valueError ∧
    post_process_docx (fun _ => .ok [['x']]) (fun _ => .error PyExc.valueError) [7]
      ≠ .ok [7] := by
  constructor
  · rfl
  · intro hcontra
    exact absurd (rfl.trans hcontra) (by simp [post_process_docx])

/-- Claim C1, amended: the validation pass silently no-ops, leaving the
output file as-is, when opening raises an I/O or value error and when
re-saving raises an I/O error; a value error raised during re-save, and
any exception other than these on either step, propagates to the caller. -/
theorem C1_validation_error_handling (od : Bytes → Except PyExc Doc)
    (sd : Doc → Except PyExc Bytes) (content : Bytes) :
    ((od content = .error PyExc.osError ∨ od content = .error PyExc.valueError) →
      post_process_docx od sd content = .ok content) ∧
    (od content = .error PyExc.other →
      post_process_docx od sd content = .error PyExc.other) ∧
    (∀ doc, od content = .ok doc → sd doc = .error PyExc.osError →
      post_process_docx od sd content = .ok content) ∧
    (∀ doc e, od content = .ok doc → sd doc = .error e → e ≠ PyExc.osError →
      post_process_docx od sd content = .error e) := by
  refine ⟨?_, ?_, ?_, ?_⟩
  · rintro (h | h) <;> simp only [post_process_docx, h]
  · intro h
    simp only [post_process_docx, h]
  · intro doc h1 h2
    simp only [post_process_docx, h1, h2]
  · intro doc e h1 h2 h3
    cases e with
    | osError => exact absurd rfl h3
    | valueError => simp only [post_process_docx, h1, h2]
    | other => simp only [post_process_docx, h1, h2]

/-- Witness for C1: open failing with `OSError` is suppressed, and save
failing with `OSError` is suppressed, at concrete oracles. -/
theorem C1_witness :
    post_process_docx (fun _ => .error PyExc.osError)
      (fun _ => .ok []) [3] = .ok [3] ∧
    post_process_docx (fun _ => .ok [])
      (fun _ => .error PyExc.osError) [3] = .ok [3] :=
  ⟨(C1_validation_error_handling _ _ _).1 (Or.inl rfl),
   (C1_validation_error_handling _ _ _).2.2.1 [] rfl rfl⟩

/-- Claim C9: when the external converter raises, the pipeline does not
catch the exception — the call's outcome is that same exception, and no
`(bytes, status)` success value is returned. -/
theorem C9_converter_error_propagates
    (conv : Bytes → Nat → Option Nat → Bool → Except PyExc Bytes)
    (od : Bytes → Except PyExc Doc) (sd : Doc → Except PyExc Bytes)
    (unl : String → Bool)
    (pdfPath outPath : String) (fs0 : FileSys) (pdf_bytes : Bytes) (e : PyExc)
    (he : conv pdf_bytes 0 none true = .error e) :
    (convert_pdf_bytes_to_docx conv od sd unl pdfPath outPath fs0
        pdf_bytes).outcome = .error e ∧
    ∀ b s, (convert_pdf_bytes_to_docx conv od sd unl pdfPath outPath fs0
        pdf_bytes).outcome ≠ .ok (b, s) := by
  have h1 : (convert_pdf_bytes_to_docx conv od sd unl pdfPath outPath fs0
      pdf_bytes).outcome = .error e := by
    unfold convert_pdf_bytes_to_docx
    rw [he]
  refine ⟨h1, ?_⟩
  intro b s hcontra
  rw [h1] at hcontra
  exact absurd hcontra (by simp)

/-- Witness for C9 at a concrete failing converter. -/
theorem C9_witness :
    (convert_pdf_bytes_to_docx (fun _ _ _ _ => .error PyExc.other)
      (fun _ => .ok []) (fun _ => .ok []) (fun _ => true) "in.pdf" "out.docx"
      (fun _ => none) [9]).outcome = .error PyExc.other :=
  (C9_converter_error_propagates (fun _ _ _ _ => .error PyExc.other)
    (fun _ => .ok []) (fun _ => .ok []) (fun _ => true) "in.pdf" "out.docx"
    (fun _ => none) [9] PyExc.other rfl).1

/-- Claim C4, counterexample: temp-file removal is only best-effort.  On
a successful run in which `os.unlink` raises an `OSError` (swallowed by
the cleanup handler), the temporary input file still exists — with its
contents intact — after the call returns. -/
theorem C4_counterexample :
    (convert_pdf_bytes_to_docx (fun _ _ _ _ => .ok [1, 2]) (fun _ => .ok [['x']])
      (fun _ => .ok [1, 2, 3]) (fun _ => false) "in.pdf" "out.docx"
      (fun _ => none) [9]).fsAfter ("in.pdf") = some [9] := by
  decide

/-- Claim C4, amended: the cleanup step runs on every exit path —
success, converter failure, or validation failure — and attempts to
unlink both temporary files (the temp-file facility hands out non-empty
path names); whenever the two unlink attempts succeed, neither file
exists after the call returns.  A failed unlink is swallowed, never
escalating to the caller, but can leave the file on disk; and the
cleanup step tolerates a missing or already-removed file without
raising: on such a file it is a no-op. -/
theorem C4_cleanup_best_effort
    (conv : Bytes → Nat → Option Nat → Bool → Except PyExc Bytes)
    (od : Bytes → Except PyExc Doc) (sd : Doc → Except PyExc Bytes)
    (unl : String → Bool)
    (pdfPath outPath : String) (fs0 : FileSys) (pdf_bytes : Bytes)
    (hp : pdfPath ≠ "") (ho : outPath ≠ "")
    (hu1 : unl pdfPath = true) (hu2 : unl outPath = true) :
    (convert_pdf_bytes_to_docx conv od sd unl pdfPath outPath fs0
        pdf_bytes).fsAfter pdfPath = none ∧
    (convert_pdf_bytes_to_docx conv od sd unl pdfPath outPath fs0
        pdf_bytes).fsAfter outPath = none ∧
    (∀ u2 fs p, fsExists fs p = false → cleanupOne u2 fs p = fs) := by
  have hex : ∃ fs, (convert_pdf_bytes_to_docx conv od sd unl pdfPath outPath fs0
      pdf_bytes).fsAfter = cleanupBoth unl fs pdfPath outPath := by
    cases hconv : conv pdf_bytes 0 none true with
    | error e =>
      simp only [convert_pdf_bytes_to_docx, hconv]
      exact ⟨fsWrite fs0 pdfPath pdf_bytes, rfl⟩
    | ok converted =>
      cases hpost : post_process_docx od sd converted with
      | error e =>
        simp only [convert_pdf_bytes_to_docx, hconv, hpost]
        exact ⟨fsWrite (fsWrite fs0 pdfPath pdf_bytes) outPath converted, rfl⟩
      | ok touched =>
        simp only [convert_pdf_bytes_to_docx, hconv, hpost]
        exact ⟨fsWrite (fsWrite (fsWrite fs0 pdfPath pdf_bytes) outPath
          converted) outPath touched, rfl⟩
  obtain ⟨fs, hfs⟩ := hex
  rw [hfs]
  have hc := cleanupBoth_clears unl fs pdfPath outPath hp ho hu1 hu2
  exact ⟨hc.1, hc.2, fun u2 fs p h => cleanupOne_missing u2 fs p h⟩

/-- Witness for C4 on a concrete successful run with succeeding unlinks. -/
theorem C4_witness :
    (convert_pdf_bytes_to_docx (fun _ _ _ _ => .ok [1, 2]) (fun _ => .ok [['x']])
      (fun _ => .ok [1, 2, 3]) (fun _ => true) "in.pdf" "out.docx"
      (fun _ => none) [9]).fsAfter ("in.pdf") = none ∧
    (convert_pdf_bytes_to_docx (fun _ _ _ _ => .ok [1, 2]) (fun _ => .ok [['x']])
      (fun _ => .ok [1, 2, 3]) (fun _ => true) "in.pdf" "out.docx"
      (fun _ => none) [9]).fsAfter ("out.docx") = none := by
  have h := C4_cleanup_best_effort (fun _ _ _ _ => .ok [1, 2]) (fun _ => .ok [['x']])
    (fun _ => .ok [1, 2, 3]) (fun _ => true) "in.pdf" "out.docx" (fun _ => none) [9]
    (by decide) (by decide) rfl rfl
  exact ⟨h.1, h.2.1⟩

/-- Claim C7: a successful call returns the output file's full bytes — the
content at the output path just before cleanup — paired with the exact
status string; and when the converter succeeds with non-empty output and
the document library never saves to empty bytes (the behavior of a valid
PDF run), the returned bytes are non-empty. -/
theorem C7_success_status_and_bytes
    (conv : Bytes → Nat → Option Nat → Bool → Except PyExc Bytes)
    (od : Bytes → Except PyExc Doc) (sd : Doc → Except PyExc Bytes)
    (unl : String → Bool)
    (pdfPath outPath : String) (fs0 : FileSys) (pdf_bytes : Bytes)
    (b : Bytes) (s : String)
    (hok : (convert_pdf_bytes_to_docx conv od sd unl pdfPath outPath fs0
        pdf_bytes).outcome = .ok (b, s)) :
    s = statusMessage ∧
    (convert_pdf_bytes_to_docx conv od sd unl pdfPath outPath fs0
        pdf_bytes).fsBefore outPath = some b ∧
    ((∀ d, conv pdf_bytes 0 none true = .ok d → d ≠ []) →
      (∀ doc saved, sd doc = .ok saved → saved ≠ []) → b ≠ []) := by
  cases hconv : conv pdf_bytes 0 none true with
  | error e =>
    simp only [convert_pdf_bytes_to_docx, hconv] at hok
    exact absurd hok (by simp)
  | ok converted =>
    cases hpost : post_process_docx od sd converted with
    | error e =>
      simp only [convert_pdf_bytes_to_docx, hconv, hpost] at hok
      exact absurd hok (by simp)
    | ok touched =>
      simp only [convert_pdf_bytes_to_docx, hconv, hpost] at hok
      injection hok with h2
      have hb : touched = b := congrArg Prod.fst h2
      have hs : statusMessage = s := congrArg Prod.snd h2
      refine ⟨hs.symm, ?_, ?_⟩
      · simp only [convert_pdf_bytes_to_docx, hconv, hpost]
        simp [fsWrite, hb]
      · intro h1 h2g
        rcases post_process_ok_cases od sd converted touched hpost with
          hsame | ⟨doc, hodc, hsdc⟩
        · rw [← hb, hsame]
          exact h1 converted rfl
        · rw [← hb]
          exact h2g doc touched hsdc

/-- Witness for C7 on a concrete successful run. -/
theorem C7_witness :
    (convert_pdf_bytes_to_docx (fun _ _ _ _ => .ok [1, 2]) (fun _ => .ok [['x']])
      (fun _ => .ok [1, 2, 3]) (fun _ => true) "in.pdf" "out.docx" (fun _ => none)
      [9]).fsBefore ("out.docx") = some [1, 2, 3] ∧ ([1, 2, 3] : Bytes) ≠ [] := by
  have h := C7_success_status_and_bytes (fun _ _ _ _ => .ok [1, 2])
    (fun _ => .ok [['x']]) (fun _ => .ok [1, 2, 3]) (fun _ => true)
    "in.pdf" "out.docx" (fun _ => none) [9] [1, 2, 3] statusMessage rfl
  refine ⟨h.2.1, h.2.2 ?_ ?_⟩
  · intro d hd
    injection hd with hd2
    rw [← hd2]
    decide
  · intro doc saved hsv
    injection hsv with hs2
    rw [← hs2]
    decide

/-- Claim C8: on a successful call the observable steps happen in exactly
this order — persist the input bytes, invoke the converter over the full
page range (`start=0`, `end=None`) with `layout=True`, run the validation
pass on the produced document, read back the output bytes, and only then
remove the two temporary files. -/
theorem C8_step_order
    (conv : Bytes → Nat → Option Nat → Bool → Except PyExc Bytes)
    (od : Bytes → Except PyExc Doc) (sd : Doc → Except PyExc Bytes)
    (unl : String → Bool)
    (pdfPath outPath : String) (fs0 : FileSys) (pdf_bytes : Bytes)
    (r : Bytes × String)
    (hp : pdfPath ≠ "") (ho : outPath ≠ "") (hne : pdfPath ≠ outPath)
    (hok : (convert_pdf_bytes_to_docx conv od sd unl pdfPath outPath fs0
        pdf_bytes).outcome = .ok r) :
    (convert_pdf_bytes_to_docx conv od sd unl pdfPath outPath fs0
        pdf_bytes).trace =
      [Event.persistInput pdfPath pdf_bytes,
       Event.runConverter pdfPath outPath 0 none true,
       Event.validate outPath,
       Event.readOutput outPath,
       Event.removeFile pdfPath,
       Event.removeFile outPath] := by
  cases hconv : conv pdf_bytes 0 none true with
  | error e =>
    simp only [convert_pdf_bytes_to_docx, hconv] at hok
    exact absurd hok (by simp)
  | ok converted =>
    cases hpost : post_process_docx od sd converted with
    | error e =>
      simp only [convert_pdf_bytes_to_docx, hconv, hpost] at hok
      exact absurd hok (by simp)
    | ok touched =>
      simp only [convert_pdf_bytes_to_docx, hconv, hpost]
      have h1 : cleanupOneTrace (fsWrite (fsWrite (fsWrite fs0 pdfPath
          pdf_bytes) outPath converted) outPath touched) pdfPath
          = [Event.removeFile pdfPath] := by
        simp [cleanupOneTrace, fsExists, fsWrite, hp, hne]
      have h2 : (cleanupOne unl (fsWrite (fsWrite (fsWrite fs0 pdfPath
          pdf_bytes) outPath converted) outPath touched) pdfPath) outPath
          = some touched := by
        rw [cleanupOne_other unl _ pdfPath outPath (Ne.symm hne)]
        simp [fsWrite]
      have h3 : cleanupOneTrace (cleanupOne unl (fsWrite (fsWrite (fsWrite fs0
          pdfPath pdf_bytes) outPath converted) outPath touched) pdfPath)
          outPath = [Event.removeFile outPath] := by
        simp [cleanupOneTrace, fsExists, h2, ho]
      simp [cleanupBothTrace, h1, h3]

/-- Witness for C8 on a concrete successful run. -/
theorem C8_witness :
    (convert_pdf_bytes_to_docx (fun _ _ _ _ => .ok [1, 2]) (fun _ => .ok [['x']])
      (fun _ => .ok [1, 2, 3]) (fun _ => true) "in.pdf" "out.docx"
      (fun _ => none) [9]).trace =
      [Event.persistInput ("in.pdf") [9],
       Event.runConverter ("in.pdf") "out.docx" 0 none true,
       Event.validate ("out.docx"),
       Event.readOutput ("out.docx"),
       Event.removeFile ("in.pdf"),
       Event.removeFile ("out.docx")] :=
  C8_step_order (fun _ _ _ _ => .ok [1, 2]) (fun _ => .ok [['x']])
    (fun _ => .ok [1, 2, 3]) (fun _ => true) "in.pdf" "out.docx"
    (fun _ => none) [9]
    ([1, 2, 3], statusMessage) (by decide) (by decide) (by decide) rfl
